import Mathlib

/-!
Shallow embedding of the SAMUDRAKSHA hazard-monitoring core
(src/server.js: NLPEngine, generateHotspots; src/ocean-api.js: OceanMonitorAPI).

Modelling conventions:
* JS numbers are modelled as exact rationals (ℚ).  All properties checked here
  are threshold comparisons whose outcomes do not depend on double rounding.
* A JS value that may be `undefined`/`NaN` is modelled as `Option ℚ` with
  `none` playing the role of NaN; arithmetic on it propagates `none`, exactly
  as NaN propagates through `+` and `/` and as `Math.floor(NaN) = NaN`.
* `null` for the text argument of `analyzeText` is modelled as `Option String`
  with `none`; `null.toLowerCase()` throws, modelled with `Except`.
* JS object iteration (`Object.entries`) follows string-key insertion order,
  so the keyword table is a list in declaration order.
-/

namespace Samudraksha

/-- JS `text.toLowerCase()` (server.js line 126), character by character.
All keywords and test inputs are ASCII, where this agrees with JS. -/
def jsToLower (s : String) : String := ⟨s.data.map Char.toLower⟩

/-- JS `text.includes(sub)`: substring containment (server.js line 137). -/
def jsIncludes (s : String) (sub : String) : Bool :=
  s.toList.tails.any (fun t => sub.toList.isPrefixOf t)

/-- Helper for `countOccurrences`: scan the text left to right; `skip > 0`
means we are still inside the span of the previous match. -/
def countOccurrencesAux (w : List Char) : List Char → Nat → Nat
  | [], _ => 0
  | _ :: rest, skip + 1 => countOccurrencesAux w rest skip
  | c :: rest, 0 =>
    if w.isPrefixOf (c :: rest) then 1 + countOccurrencesAux w rest (w.length - 1)
    else countOccurrencesAux w rest 0

/-- Number of matches of `lowerText.match(new RegExp(word, 'g'))`
(server.js lines 154-157): non-overlapping left-to-right substring
occurrences.  The words used contain no regex metacharacters. -/
def countOccurrences (w : List Char) (s : List Char) : Nat :=
  countOccurrencesAux w s 0

/-- Hazard keyword table of `NLPEngine` (server.js lines 112-119), one list
per category, in the declaration order used by `Object.entries`. -/
def floodKeywords : List String := ["flood", "flooding", "water", "rain", "overflow", "submerged"]

def stormKeywords : List String := ["storm", "cyclone", "hurricane", "wind", "tornado"]

def fireKeywords : List String := ["fire", "burning", "smoke", "flames", "wildfire"]

def earthquakeKeywords : List String := ["earthquake", "tremor", "shake", "seismic"]

def tsunamiKeywords : List String := ["tsunami", "wave", "surge", "coastal"]

def accidentKeywords : List String := ["accident", "crash", "collision", "emergency"]

def hazardKeywords : List (String × List String) :=
  [("flood", floodKeywords), ("storm", stormKeywords), ("fire", fireKeywords),
   ("earthquake", earthquakeKeywords), ("tsunami", tsunamiKeywords),
   ("accident", accidentKeywords)]

def urgencyKeywords : List String :=
  ["urgent", "emergency", "critical", "immediate", "help", "rescue"]

def negativeWords : List String :=
  ["danger", "disaster", "severe", "critical", "emergency"]

def positiveWords : List String :=
  ["safe", "help", "rescue", "support"]

/-- Result object of `NLPEngine.analyzeText` (server.js lines 127-133).
`hazardType := none` models the JS `null` initial value (the spec calls this
value "none"); `keywords` is the spec's `matchedKeywords`. -/
structure Analysis where
  hazardType : Option String
  urgencyLevel : ℚ
  keywords : List String
  sentiment : String
  confidence : ℚ
deriving DecidableEq, Repr

/-- Body of the hazard-detection loop (server.js lines 136-143): state is
(hazardType, keywords, confidence); a category with at least one matching
keyword overwrites `hazardType`, appends its matches and adds
`matches.length * 0.2` to the confidence. -/
def hazardStep (lower : String) (acc : Option String × List String × ℚ)
    (entry : String × List String) : Option String × List String × ℚ :=
  let matchList := entry.2.filter (fun keyword => jsIncludes lower keyword)
  if 0 < matchList.length then
    (some entry.1, acc.2.1 ++ matchList, acc.2.2 + (matchList.length : ℚ) * 0.2)
  else acc

/-- The hazard-detection loop over all categories (server.js lines 136-143). -/
def detectHazard (lower : String) : Option String × List String × ℚ :=
  hazardKeywords.foldl (hazardStep lower) (none, [], 0)

/-- Total occurrence count of a word list in the text: the
`reduce((count, word) => count + (lowerText.match(...) || []).length, 0)`
of server.js lines 154-157. -/
def countTotalOccurrences (words : List String) (lower : String) : Nat :=
  words.foldl (fun count word => count + countOccurrences word.toList lower.toList) 0

/-- `NLPEngine.analyzeText` (server.js lines 125-164) for a string argument. -/
def analyzeText (text : String) : Analysis :=
  let lowerText := jsToLower text
  let h := detectHazard lowerText
  let urgencyMatches := urgencyKeywords.filter (fun keyword => jsIncludes lowerText keyword)
  let negCount := countTotalOccurrences negativeWords lowerText
  let posCount := countTotalOccurrences positiveWords lowerText
  { hazardType := h.1
    urgencyLevel := min ((urgencyMatches.length : ℚ) * 0.3) 1
    keywords := h.2.1 ++ urgencyMatches
    sentiment :=
      if posCount < negCount then "negative"
      else if negCount < posCount then "positive"
      else "neutral"
    confidence := min h.2.2 1 }

/-- The JS runtime error raised by `text.toLowerCase()` when `text` is
`null`/`undefined` (server.js line 126). -/
inductive JSError where
  | typeError
deriving DecidableEq, Repr

/-- `NLPEngine.analyzeText` as called from JS, where the argument may be
`null`/`undefined` (modelled by `none`): line 126 `text.toLowerCase()`
throws a TypeError in that case, before any field of the result is built. -/
def analyzeTextJS : Option String → Except JSError Analysis
  | none => .error .typeError
  | some text => .ok (analyzeText text)

/-! ### Social-media relevance scoring (server.js lines 166-177) -/

/-- A social post as consumed by `NLPEngine` (fields actually read:
`content` and `engagement`). -/
structure Post where
  content : String
  engagement : ℚ
deriving DecidableEq, Repr

/-- The object produced for each post by `processSocialMedia`:
`{...post, analysis, relevanceScore}` (server.js lines 167-170). -/
structure AnalyzedPost where
  post : Post
  analysis : Analysis
  relevanceScore : ℚ
deriving DecidableEq, Repr

/-- `NLPEngine.calculateRelevance` (server.js lines 174-177). -/
def calculateRelevance (post : Post) : ℚ :=
  let analysis := analyzeText post.content
  analysis.confidence * (1 + post.engagement / 100) * (analysis.urgencyLevel + 0.5)

/-- `NLPEngine.processSocialMedia` (server.js lines 166-172): map each post to
its augmented object, then keep those with `analysis.confidence > 0.3`. -/
def processSocialMedia (posts : List Post) : List AnalyzedPost :=
  (posts.map fun post =>
    { post := post
      analysis := analyzeText post.content
      relevanceScore := calculateRelevance post }).filter
    (fun p => decide (0.3 < p.analysis.confidence))

/-! ### Hotspot generation (server.js lines 183-221)

Coordinates may be absent (`undefined` in JS): they are `Option ℚ`, with
`none` for an absent value and for the `NaN` that arises from arithmetic on
it.  `Math.floor(NaN)` is `NaN` and the template string renders it as the
cell-key text "NaN", so cell keys are pairs in `Option ℤ`, `none` rendering
as "NaN"; key equality coincides with equality of the rendered strings
because a rendered integer is never the text "NaN". -/

/-- A citizen report as read by `generateHotspots` (fields actually read:
`timestamp`, `latitude`, `longitude`, `severity`, `type`, `peopleAffected`).
`timestamp` is the epoch-millisecond value of the report's ISO timestamp;
`peopleAffected` is the raw (string) form field, absent when not supplied. -/
structure Report where
  latitude : Option ℚ
  longitude : Option ℚ
  severity : String
  type : String
  timestamp : ℤ
  peopleAffected : Option String
deriving DecidableEq, Repr

/-- JS `parseInt` on a string: skip leading whitespace, optional sign, then
leading decimal digits; `none` models `NaN` (no digits). -/
def parseIntJS (s : String) : Option ℤ :=
  let cs := s.data.dropWhile (fun c => c == ' ' || c == '\t' || c == '\n' || c == '\r')
  match cs with
  | '-' :: rest =>
    let ds := rest.takeWhile Char.isDigit
    if ds.isEmpty then none else some (-(ds.foldl (fun a c => a * 10 + ((c.toNat : ℤ) - 48)) 0))
  | '+' :: rest =>
    let ds := rest.takeWhile Char.isDigit
    if ds.isEmpty then none else some (ds.foldl (fun a c => a * 10 + ((c.toNat : ℤ) - 48)) 0)
  | _ =>
    let ds := cs.takeWhile Char.isDigit
    if ds.isEmpty then none else some (ds.foldl (fun a c => a * 10 + ((c.toNat : ℤ) - 48)) 0)

/-- JS `+` on possibly-NaN numbers: NaN propagates. -/
def jsAdd : Option ℚ → Option ℚ → Option ℚ
  | some x, some y => some (x + y)
  | _, _ => none

/-- JS `/` by a nonzero count on a possibly-NaN numerator. -/
def jsDiv (s : Option ℚ) (n : ℚ) : Option ℚ := s.map (fun x => x / n)

/-- The cell key of a report (server.js line 191):
`Math.floor(latitude * 10)` and `Math.floor(longitude * 10)`, `none` when the
coordinate is absent (then `undefined * 10` is `NaN` and the key text is
"NaN"). -/
def clusterKey (r : Report) : Option ℤ × Option ℤ :=
  (r.latitude.map (fun x => ⌊x * 10⌋), r.longitude.map (fun x => ⌊x * 10⌋))

/-- One iteration of the grouping loop (server.js lines 190-196): push the
report onto its cell's list, creating the cell on first sight. -/
def clusterStep (clusters : List ((Option ℤ × Option ℤ) × List Report)) (r : Report) :
    List ((Option ℤ × Option ℤ) × List Report) :=
  let key := clusterKey r
  if clusters.any (fun c => decide (c.1 = key)) then
    clusters.map (fun c => if c.1 = key then (c.1, c.2 ++ [r]) else c)
  else clusters ++ [(key, [r])]

/-- Grouping of the filtered reports into `locationClusters`
(server.js lines 189-196), preserving key insertion order as a JS object
with string keys does. -/
def buildClusters (rs : List Report) : List ((Option ℤ × Option ℤ) × List Report) :=
  rs.foldl clusterStep []

/-- The severity weight table (server.js line 206), with the `|| 1` default
for unknown severities. -/
def severityWeight (s : String) : ℤ :=
  if s = "critical" then 4
  else if s = "high" then 3
  else if s = "medium" then 2
  else if s = "low" then 1
  else 1

/-- `severityScore` of a cluster (server.js lines 205-208). -/
def severityScore (rs : List Report) : ℤ :=
  rs.foldl (fun score r => score + severityWeight r.severity) 0

/-- The severity category derived from the score (server.js line 215). -/
def severityCategory (score : ℤ) : String :=
  if 10 < score then "critical" else if 6 < score then "high" else "medium"

/-- `[...new Set(xs)]`: deduplicate keeping first occurrences in order. -/
def jsSetDedup (l : List String) : List String :=
  l.foldl (fun acc x => if x ∈ acc then acc else acc ++ [x]) []

/-- Sum of member latitudes, `reduce((sum, r) => sum + r.latitude, 0)`
(server.js line 202); an absent coordinate turns the sum into NaN. -/
def sumLat (rs : List Report) : Option ℚ :=
  rs.foldl (fun s r => jsAdd s r.latitude) (some 0)

/-- Sum of member longitudes (server.js line 203). -/
def sumLng (rs : List Report) : Option ℚ :=
  rs.foldl (fun s r => jsAdd s r.longitude) (some 0)

/-- `parseInt(r.peopleAffected) || 0` summed over the cluster
(server.js line 218). -/
def affectedPeopleOf (rs : List Report) : ℤ :=
  rs.foldl (fun sum r => sum + ((r.peopleAffected.bind parseIntJS).getD 0)) 0

/-- `Math.max(...timestamps)` over a cluster (server.js line 217); clusters
reaching this point are nonempty, the `[]` case is JS's `-Infinity` and is
never used. -/
def maxTimestamp : List Report → ℤ
  | [] => 0
  | r :: rest => rest.foldl (fun m x => max m x.timestamp) r.timestamp

/-- A generated hotspot (server.js lines 210-219).  The JS `id` is the string
`"a_b"` for the key pair `(a, b)`; we keep the pair itself, which is in
bijection with the rendered string. -/
structure Hotspot where
  id : Option ℤ × Option ℤ
  latitude : Option ℚ
  longitude : Option ℚ
  reportCount : Nat
  severity : String
  types : List String
  lastUpdate : ℤ
  affectedPeople : ℤ
deriving DecidableEq, Repr

/-- The hotspot built from one surviving cluster (server.js lines 201-219). -/
def mkHotspot (key : Option ℤ × Option ℤ) (rs : List Report) : Hotspot :=
  { id := key
    latitude := jsDiv (sumLat rs) rs.length
    longitude := jsDiv (sumLng rs) rs.length
    reportCount := rs.length
    severity := severityCategory (severityScore rs)
    types := jsSetDedup (rs.map (fun r => r.type))
    lastUpdate := maxTimestamp rs
    affectedPeople := affectedPeopleOf rs }

/-- The 24-hour window in milliseconds (server.js line 185). -/
def timeWindow : ℤ := 24 * 60 * 60 * 1000

/-- `generateHotspots` (server.js lines 183-221) as a function of the report
list and the current epoch-millisecond time `now`. -/
def generateHotspots (reports : List Report) (now : ℤ) : List Hotspot :=
  let filtered := reports.filter (fun r => decide (now - r.timestamp < timeWindow))
  let clusters := buildClusters filtered
  (clusters.filter (fun c => decide (2 ≤ c.2.length))).map (fun c => mkHotspot c.1 c.2)

/-! ### Risk model (src/ocean-api.js lines 96-159) -/

/-- A query or hazard location. -/
structure Location where
  lat : ℚ
  lng : ℚ
deriving DecidableEq, Repr

/-- An active environmental hazard as read by `assessRisk` (fields actually
read: `type`, `severity`, `location`). -/
structure Hazard where
  type : String
  severity : String
  location : Location
deriving DecidableEq, Repr

/-- The `riskFactors` accumulator (ocean-api.js lines 97-102). -/
structure RiskFactors where
  storm : ℚ
  waves : ℚ
  wind : ℚ
  visibility : ℚ
deriving DecidableEq, Repr

/-- The result of `assessRisk` (ocean-api.js lines 127-133) minus the
wall-clock `timestamp` field, which is outside every claim about scoring. -/
structure RiskAssessment where
  overallRisk : ℚ
  riskLevel : String
  factors : RiskFactors
  recommendations : List String
deriving DecidableEq, Repr

/-- `generateRecommendations` (ocean-api.js lines 137-159). -/
def generateRecommendations (riskLevel : ℚ) : List String :=
  if 0.7 < riskLevel then
    ["Avoid all marine activities",
     "Small vessels should return to harbor immediately",
     "Monitor weather updates continuously",
     "Prepare emergency supplies"]
  else if 0.4 < riskLevel then
    ["Exercise caution in marine activities",
     "Monitor weather conditions closely",
     "Ensure safety equipment is ready",
     "Consider postponing non-essential trips"]
  else
    ["Normal marine activities permitted",
     "Standard safety precautions advised",
     "Monitor routine weather updates"]

/-- The `switch` body of the hazard loop (ocean-api.js lines 109-122). -/
def accumulateRisk (proximity : ℚ) (h : Hazard) (f : RiskFactors) : RiskFactors :=
  if h.type = "storm" then
    { f with storm := f.storm + proximity * (if h.severity = "high" then 0.8 else 0.5) }
  else if h.type = "waves" then
    { f with waves := f.waves + proximity * (if h.severity = "high" then 0.7 else 0.4) }
  else if h.type = "wind" then
    { f with wind := f.wind + proximity * 0.3 }
  else if h.type = "visibility" then
    { f with visibility := f.visibility + proximity * 0.2 }
  else f

/-- `OceanMonitorAPI.assessRisk` (ocean-api.js lines 96-134).  The haversine
`calculateDistance` (lines 219-227) computes over transcendental functions,
so the distance function is passed as a parameter `dist`; `hazards` is the
`this.hazards` list; `timeframe` is the second JS parameter (default 24),
which the body never reads. -/
def assessRisk (dist : Location → Location → ℚ) (location : Location)
    (hazards : List Hazard) (timeframe : ℚ) : RiskAssessment :=
  let riskFactors := hazards.foldl
    (fun f h =>
      let distance := dist location h.location
      let proximity := max 0 (1 - distance / 100)
      accumulateRisk proximity h f)
    ⟨0, 0, 0, 0⟩
  let overallRisk :=
    min 1 (riskFactors.storm + riskFactors.waves + riskFactors.wind + riskFactors.visibility)
  { overallRisk := overallRisk
    riskLevel :=
      if 0.7 < overallRisk then "high" else if 0.4 < overallRisk then "medium" else "low"
    factors := riskFactors
    recommendations := generateRecommendations overallRisk }

/-! ### Definitions taken from the specification's words, for comparison -/

/-- A regex word character, for the spec's notion of whole-word matching. -/
def isWordChar (c : Char) : Bool := c.isAlphanum || c == '_'

/-- Split a character list at every non-word character. -/
def splitNonWord : List Char → List (List Char)
  | [] => [[]]
  | c :: rest =>
    match splitNonWord rest with
    | [] => [[]]
    | t :: ts => if isWordChar c then (c :: t) :: ts else [] :: t :: ts

/-- Spec-side definition (spec §4.1 step 4): "whole-word frequency counting"
of a word — the number of whole words of the text equal to it. -/
def wholeWordCount (w : String) (s : String) : Nat :=
  ((splitNonWord s.data).filter (fun t => !t.isEmpty)).count w.data

/-- Spec-side total over a word list. -/
def wholeWordTotal (words : List String) (lower : String) : Nat :=
  words.foldl (fun count word => count + wholeWordCount word lower) 0

/-- Spec-side sentiment (spec §4.1 step 4, read literally with whole-word
counting): negative iff the negative count exceeds the positive count,
positive iff the reverse, else neutral. -/
def specSentimentWholeWord (text : String) : String :=
  let lower := jsToLower text
  if wholeWordTotal positiveWords lower < wholeWordTotal negativeWords lower then "negative"
  else if wholeWordTotal negativeWords lower < wholeWordTotal positiveWords lower then "positive"
  else "neutral"

/-- Spec-side cell coordinate (claim C7's words): `latitude * 10` "truncated
to an integer", i.e. rounded toward zero, as JS `Math.trunc`. -/
def truncQ (x : ℚ) : ℤ := if 0 ≤ x then ⌊x⌋ else ⌈x⌉

/-- The keywords of the categories after `flood` in declaration order. -/
def laterHazardKeywords : List String :=
  stormKeywords ++ fireKeywords ++ earthquakeKeywords ++ tsunamiKeywords ++ accidentKeywords

/-- All hazard keywords in declaration order. -/
def allHazardKeywords : List String :=
  (hazardKeywords.map (fun e => e.2)).flatten

/-! ### Helper lemmas about the hazard-detection loop -/

lemma hazardStep_kws (L : String) (acc : Option String × List String × ℚ)
    (e : String × List String) :
    (hazardStep L acc e).2.1 = acc.2.1 ++ e.2.filter (fun k => jsIncludes L k) := by
  simp only [hazardStep]
  split
  · rfl
  · rename_i h
    have hnil : e.2.filter (fun k => jsIncludes L k) = [] :=
      List.length_eq_zero.mp (by omega)
    simp [hnil]

lemma foldl_hazardStep_kws (L : String) :
    ∀ (entries : List (String × List String)) (acc : Option String × List String × ℚ),
      (entries.foldl (hazardStep L) acc).2.1 =
        acc.2.1 ++ (entries.map (fun e => e.2.filter (fun k => jsIncludes L k))).flatten
  | [], acc => by simp
  | e :: rest, acc => by
    simp only [List.foldl_cons, List.map_cons, List.flatten_cons]
    rw [foldl_hazardStep_kws L rest, hazardStep_kws, List.append_assoc]

lemma analyzeText_keywords (text : String) :
    (analyzeText text).keywords =
      (hazardKeywords.map
          (fun e => e.2.filter (fun k => jsIncludes (jsToLower text) k))).flatten ++
        urgencyKeywords.filter (fun k => jsIncludes (jsToLower text) k) := by
  show (detectHazard (jsToLower text)).2.1 ++ _ = _
  rw [detectHazard, foldl_hazardStep_kws]
  rfl

lemma hazardStep_conf_le (L : String) (acc : Option String × List String × ℚ)
    (e : String × List String) : acc.2.2 ≤ (hazardStep L acc e).2.2 := by
  simp only [hazardStep]
  split
  · exact le_add_of_nonneg_right (by positivity)
  · exact le_refl _

lemma foldl_hazardStep_conf_le (L : String) :
    ∀ (entries : List (String × List String)) (acc : Option String × List String × ℚ),
      acc.2.2 ≤ (entries.foldl (hazardStep L) acc).2.2
  | [], _ => le_refl _
  | e :: rest, acc =>
    le_trans (hazardStep_conf_le L acc e) (foldl_hazardStep_conf_le L rest (hazardStep L acc e))

lemma detectHazard_conf_nonneg (L : String) : 0 ≤ (detectHazard L).2.2 :=
  foldl_hazardStep_conf_le L hazardKeywords (none, [], 0)

lemma hazardStep_nil {L : String} {acc : Option String × List String × ℚ} {ty : String}
    {l : List String} (h : l.filter (fun k => jsIncludes L k) = []) :
    hazardStep L acc (ty, l) = acc := by
  simp [hazardStep, h]

lemma hazardStep_pos {L : String} {acc : Option String × List String × ℚ} {ty : String}
    {l : List String} (h : 0 < (l.filter (fun k => jsIncludes L k)).length) :
    (hazardStep L acc (ty, l)).1 = some ty := by
  simp only [hazardStep]
  rw [if_pos h]

lemma join_filter_sublist (p : String → Bool) :
    ∀ l : List (String × List String),
      ((l.map (fun e => e.2.filter p)).flatten).Sublist ((l.map (fun e => e.2)).flatten)
  | [] => by simp
  | e :: rest => by
    simp only [List.map_cons, List.flatten_cons]
    exact (List.filter_sublist e.2).append (join_filter_sublist p rest)

/-! ### Claim theorems: text-signal extractor -/

/-- Claim C1, counterexample: the text "flood fire" contains the flood
keyword "flood" and no keyword of any category ordered before flood (flood
is first in the enumeration), yet `analyzeText` reports "fire" — the
category that comes latest among those that match, not earliest — so the
reported type is not "flood". -/
theorem hazard_last_wins_counterexample :
    jsIncludes (jsToLower "flood fire") "flood" = true ∧
    (analyzeText "flood fire").hazardType = some "fire" ∧
    (analyzeText "flood fire").hazardType ≠ some "flood" := by decide

/-- Claim C1, amended: when keywords of more than one hazard category match,
`analyzeText` reports the category that comes LATEST in the fixed enumeration
order (flood, storm, fire, earthquake, tsunami, accident), because each
matching category overwrites `hazardType`; in particular, for all text
containing a flood keyword and no later-ordered-category keyword,
the reported hazard type is "flood". -/
theorem hazard_last_wins (text : String)
    (hflood : ∃ kw ∈ floodKeywords, jsIncludes (jsToLower text) kw = true)
    (hlater : ∀ kw ∈ laterHazardKeywords, jsIncludes (jsToLower text) kw = false) :
    (analyzeText text).hazardType = some "flood" := by
  obtain ⟨kw, hmem, hinc⟩ := hflood
  have hpos : 0 < (floodKeywords.filter (fun k => jsIncludes (jsToLower text) k)).length := by
    rw [List.length_pos]
    intro hnil
    have := List.filter_eq_nil_iff.mp hnil kw hmem
    simp [hinc] at this
  have hlater' : ∀ l : List String,
      (∀ kw ∈ l, kw ∈ laterHazardKeywords) →
      l.filter (fun k => jsIncludes (jsToLower text) k) = [] := by
    intro l hsub
    rw [List.filter_eq_nil_iff]
    intro k hk
    simp [hlater k (hsub k hk)]
  have hstorm := hlater' stormKeywords (by decide)
  have hfire := hlater' fireKeywords (by decide)
  have hquake := hlater' earthquakeKeywords (by decide)
  have htsunami := hlater' tsunamiKeywords (by decide)
  have haccident := hlater' accidentKeywords (by decide)
  show (detectHazard (jsToLower text)).1 = some "flood"
  rw [detectHazard]
  simp only [hazardKeywords, List.foldl_cons, List.foldl_nil]
  rw [hazardStep_nil haccident, hazardStep_nil htsunami, hazardStep_nil hquake,
    hazardStep_nil hfire, hazardStep_nil hstorm]
  exact hazardStep_pos hpos

/-- Witness for the amended C1 at the concrete text "flood". -/
theorem hazard_last_wins_witness : (analyzeText "flood").hazardType = some "flood" :=
  hazard_last_wins "flood" ⟨"flood", by decide, by decide⟩ (by decide)

/-- Claim C2, counterexample: `analyzeText` is not total over null-equivalent
input — called with `null`/`undefined` text it throws a TypeError from
`text.toLowerCase()` instead of returning the zero-signal result. -/
theorem analyzeText_null_throws :
    analyzeTextJS none = Except.error JSError.typeError := rfl

/-- Claim C2, amended: `analyzeText` never throws for string input and for
empty text returns the zero-signal result (hazardType null — the spec's
"none" —, urgencyLevel 0, sentiment "neutral", confidence 0, no matched
keywords); for absent (null-equivalent) text it instead throws a TypeError,
so callers guard with `description || ''`. -/
theorem analyzeText_empty_zero_signal :
    analyzeText "" =
      { hazardType := none, urgencyLevel := 0, keywords := [],
        sentiment := "neutral", confidence := 0 } ∧
    ∀ text : String, analyzeTextJS (some text) = Except.ok (analyzeText text) := by
  refine ⟨?_, fun _ => rfl⟩
  simp [analyzeText, detectHazard, hazardKeywords, hazardStep, floodKeywords, stormKeywords,
    fireKeywords, earthquakeKeywords, tsunamiKeywords, accidentKeywords, urgencyKeywords,
    negativeWords, positiveWords, jsIncludes, jsToLower, countTotalOccurrences,
    countOccurrences, countOccurrencesAux]

/-- Claim C3, counterexample: on the text "dangerous" the whole-word counts
of the negative and positive word sets are both 0, so the claimed whole-word
rule yields "neutral", but `analyzeText` counts substring occurrences
(the regexes have no word boundaries), finds "danger" inside "dangerous",
and returns "negative". -/
theorem sentiment_substring_counterexample :
    (analyzeText "dangerous").sentiment = "negative" ∧
    specSentimentWholeWord "dangerous" = "neutral" ∧
    wholeWordCount "danger" "dangerous" = 0 := by decide

/-- Claim C3, amended: `analyzeText` determines sentiment by SUBSTRING
frequency counting (regex matching without word boundaries) of the fixed
negative-word and positive-word sets: "negative" iff the negative count
exceeds the positive count, "positive" iff the positive count exceeds the
negative count, and "neutral" otherwise. -/
theorem sentiment_substring_counts (text : String) :
    ((analyzeText text).sentiment = "negative" ↔
      countTotalOccurrences positiveWords (jsToLower text) <
        countTotalOccurrences negativeWords (jsToLower text)) ∧
    ((analyzeText text).sentiment = "positive" ↔
      countTotalOccurrences negativeWords (jsToLower text) <
        countTotalOccurrences positiveWords (jsToLower text)) ∧
    ((analyzeText text).sentiment = "neutral" ↔
      countTotalOccurrences negativeWords (jsToLower text) =
        countTotalOccurrences positiveWords (jsToLower text)) := by
  have hsent : (analyzeText text).sentiment =
      (if countTotalOccurrences positiveWords (jsToLower text) <
            countTotalOccurrences negativeWords (jsToLower text) then "negative"
       else if countTotalOccurrences negativeWords (jsToLower text) <
            countTotalOccurrences positiveWords (jsToLower text) then "positive"
       else "neutral") := rfl
  rw [hsent]
  rcases Nat.lt_trichotomy (countTotalOccurrences positiveWords (jsToLower text))
      (countTotalOccurrences negativeWords (jsToLower text)) with h | h | h
  · rw [if_pos h]
    refine ⟨by simp [h], by simp; omega, by simp; omega⟩
  · rw [if_neg (by omega), if_neg (by omega)]
    refine ⟨by simp; omega, by simp; omega, by simp; omega⟩
  · rw [if_neg (by omega), if_pos h]
    refine ⟨by simp; omega, by simp [h], by simp; omega⟩

/-- Claim C6: for arbitrary input text, both the confidence and the urgency
level returned by `analyzeText` lie in the closed interval [0, 1]. -/
theorem confidence_urgency_bounds (text : String) :
    0 ≤ (analyzeText text).confidence ∧ (analyzeText text).confidence ≤ 1 ∧
    0 ≤ (analyzeText text).urgencyLevel ∧ (analyzeText text).urgencyLevel ≤ 1 := by
  refine ⟨?_, ?_, ?_, ?_⟩
  · exact le_min (detectHazard_conf_nonneg (jsToLower text)) zero_le_one
  · exact min_le_right _ _
  · exact le_min (by positivity) zero_le_one
  · exact min_le_right _ _

/-- Claim C10, counterexample: on the text "emergency" the word matches both
the accident hazard-keyword list and the urgency-keyword list, and
`analyzeText` returns the keyword list ["emergency", "emergency"] — it has a
duplicate, so `matchedKeywords` is not a set of strings. -/
theorem keywords_duplicate_counterexample :
    (analyzeText "emergency").keywords = ["emergency", "emergency"] ∧
    ¬ (analyzeText "emergency").keywords.Nodup := by decide

/-- Claim C10, amended: the matchedKeywords collection returned by
`analyzeText` is a list, not a set: a word belonging to both a
hazard-category keyword list and the urgency keyword list appears once for
each, so an entry can occur at most twice, and duplicates do occur
(e.g. "emergency"). -/
theorem keywords_count_le_two (text : String) (w : String) :
    (analyzeText text).keywords.count w ≤ 2 := by
  rw [analyzeText_keywords, List.count_append]
  have h1 := (join_filter_sublist (fun k => jsIncludes (jsToLower text) k)
    hazardKeywords).count_le w
  have h2 : allHazardKeywords.count w ≤ 1 :=
    List.nodup_iff_count_le_one.mp (by decide) w
  have h3 := (List.filter_sublist (p := fun k => jsIncludes (jsToLower text) k)
    urgencyKeywords).count_le w
  have h4 : urgencyKeywords.count w ≤ 1 :=
    List.nodup_iff_count_le_one.mp (by decide) w
  have h12 : ((hazardKeywords.map
      (fun e => e.2.filter (fun k => jsIncludes (jsToLower text) k))).flatten).count w ≤ 1 :=
    le_trans h1 h2
  omega

/-! ### Claim theorems: relevance scorer and risk model -/

/-- Claim C9: `processSocialMedia` returns exactly those posts whose analysis
confidence exceeds 0.3, each augmented with its analysis and a relevance
score equal to confidence * (1 + engagement/100) * (urgencyLevel + 0.5)
computed from that post's text. -/
theorem processSocialMedia_spec (posts : List Post) :
    processSocialMedia posts =
      (posts.filter (fun post => decide (0.3 < (analyzeText post.content).confidence))).map
        (fun post =>
          { post := post
            analysis := analyzeText post.content
            relevanceScore :=
              (analyzeText post.content).confidence * (1 + post.engagement / 100) *
                ((analyzeText post.content).urgencyLevel + 0.5) }) := by
  unfold processSocialMedia
  rw [List.filter_map]
  rfl

/-- Claim C8: the timeframe parameter of `assessRisk` is inert — two calls
differing only in the timeframe return the same assessment (same overall
risk, risk level, per-factor weights, and recommendations), for every
distance function, query location and active-hazard list. -/
theorem assessRisk_timeframe_inert (dist : Location → Location → ℚ)
    (location : Location) (hazards : List Hazard) (t1 t2 : ℚ) :
    assessRisk dist location hazards t1 = assessRisk dist location hazards t2 := rfl

/-! ### Helper lemmas about the grouping loop -/

lemma clusterStep_inv (acc : List ((Option ℤ × Option ℤ) × List Report)) (r : Report)
    (hinv : ∀ k mem, (k, mem) ∈ acc → ∀ x ∈ mem, clusterKey x = k) :
    ∀ k mem, (k, mem) ∈ clusterStep acc r → ∀ x ∈ mem, clusterKey x = k := by
  intro k mem hmem x hx
  simp only [clusterStep] at hmem
  split at hmem
  · rw [List.mem_map] at hmem
    obtain ⟨c, hc, heq⟩ := hmem
    by_cases hck : c.1 = clusterKey r
    · rw [if_pos hck, Prod.mk.injEq] at heq
      obtain ⟨rfl, rfl⟩ := heq
      rw [List.mem_append] at hx
      rcases hx with hx | hx
      · exact hinv c.1 c.2 hc x hx
      · rw [List.mem_singleton] at hx
        rw [hx, hck]
    · rw [if_neg hck] at heq
      exact hinv k mem (heq ▸ hc) x hx
  · rw [List.mem_append] at hmem
    rcases hmem with hmem | hmem
    · exact hinv k mem hmem x hx
    · rw [List.mem_singleton, Prod.mk.injEq] at hmem
      obtain ⟨rfl, rfl⟩ := hmem
      rw [List.mem_singleton] at hx
      rw [hx]

lemma foldl_clusterStep_inv :
    ∀ (rs : List Report) (acc : List ((Option ℤ × Option ℤ) × List Report)),
      (∀ k mem, (k, mem) ∈ acc → ∀ x ∈ mem, clusterKey x = k) →
      ∀ k mem, (k, mem) ∈ rs.foldl clusterStep acc → ∀ x ∈ mem, clusterKey x = k
  | [], _, h => h
  | r :: rest, acc, h => foldl_clusterStep_inv rest (clusterStep acc r) (clusterStep_inv acc r h)

/-! ### Claim theorems: spatial aggregator -/

/-- Claim C5: every hotspot produced by `generateHotspots` (for any report
set and clock) comes from a cell with at least 2 member reports, so a cell
containing exactly one in-window report never yields a hotspot; and a cell
containing exactly two identical-location reports of severity "critical"
yields severityScore 8 and hotspot category "high" (not "critical", since 8
is not > 10). -/
theorem hotspots_min_two_and_double_critical :
    (∀ (reports : List Report) (now : ℤ) (h : Hotspot),
        h ∈ generateHotspots reports now → 2 ≤ h.reportCount) ∧
    (∀ (lat lng : ℚ) (ty : String) (t now : ℤ), now - t < timeWindow →
        severityScore [⟨some lat, some lng, "critical", ty, t, none⟩,
                       ⟨some lat, some lng, "critical", ty, t, none⟩] = 8 ∧
        generateHotspots [⟨some lat, some lng, "critical", ty, t, none⟩,
                          ⟨some lat, some lng, "critical", ty, t, none⟩] now =
          [{ id := (some ⌊lat * 10⌋, some ⌊lng * 10⌋), latitude := some lat,
             longitude := some lng, reportCount := 2, severity := "high",
             types := [ty], lastUpdate := t, affectedPeople := 0 }]) := by
  constructor
  · intro reports now h hmem
    simp only [generateHotspots, List.mem_map] at hmem
    obtain ⟨c, hc, rfl⟩ := hmem
    rw [List.mem_filter] at hc
    exact of_decide_eq_true hc.2
  · intro lat lng ty t now hw
    constructor
    · simp [severityScore, severityWeight]
    · simp [generateHotspots, hw, buildClusters, clusterStep, clusterKey, mkHotspot, sumLat,
        sumLng, jsAdd, jsDiv, severityScore, severityWeight, severityCategory, jsSetDedup,
        maxTimestamp, affectedPeopleOf]

/-- Witness for C5 at a concrete report pair (two identical "critical"
reports at latitude 1, longitude 2, both in window at `now = 0`). -/
theorem hotspots_min_two_and_double_critical_witness :
    2 ≤ (Hotspot.mk (some 10, some 20) (some 1) (some 2) 2 "high" ["flood"] 0 0).reportCount ∧
    (severityScore [⟨some 1, some 2, "critical", "flood", 0, none⟩,
                    ⟨some 1, some 2, "critical", "flood", 0, none⟩] = 8 ∧
     generateHotspots [⟨some 1, some 2, "critical", "flood", 0, none⟩,
                       ⟨some 1, some 2, "critical", "flood", 0, none⟩] 0 =
       [{ id := (some ⌊(1 : ℚ) * 10⌋, some ⌊(2 : ℚ) * 10⌋), latitude := some 1,
          longitude := some 2, reportCount := 2, severity := "high",
          types := ["flood"], lastUpdate := 0, affectedPeople := 0 }]) := by
  constructor
  · exact hotspots_min_two_and_double_critical.1
      [⟨some 1, some 2, "critical", "flood", 0, none⟩,
       ⟨some 1, some 2, "critical", "flood", 0, none⟩] 0 _
      (by rw [(hotspots_min_two_and_double_critical.2 1 2 "flood" 0 0 (by decide)).2]
          norm_num [List.mem_singleton])
  · exact hotspots_min_two_and_double_critical.2 1 2 "flood" 0 0 (by decide)

/-- Claim C4, counterexample: a report with missing coordinates is neither
skipped nor given substituted-0 coordinates: `Math.floor(undefined * 10)` is
`NaN`, so such reports land in the cell keyed "NaN_NaN" (here `(none, none)`)
and two of them produce a hotspot with NaN centroid, whereas 0-substitution
would have produced the key "0_0" (`(some 0, some 0)`), and skipping would
have produced no hotspot at all. -/
theorem missing_coords_nan_cell_counterexample :
    generateHotspots
      [{ latitude := none, longitude := none, severity := "low", type := "flood",
         timestamp := 0, peopleAffected := none },
       { latitude := none, longitude := none, severity := "low", type := "flood",
         timestamp := 0, peopleAffected := none }] 0 =
      [{ id := (none, none), latitude := none, longitude := none, reportCount := 2,
         severity := "medium", types := ["flood"], lastUpdate := 0, affectedPeople := 0 }] ∧
    ((none, none) : Option ℤ × Option ℤ) ≠ (some 0, some 0) := by decide

/-- Claim C4, amended: `generateHotspots` tolerates malformed numeric fields
without aborting the pass: a report with non-numeric `peopleAffected`
contributes 0 to `affectedPeople`, and a report with missing coordinates is
grouped under the NaN cell key (not skipped, not 0-substituted) — the
aggregation still completes and aggregates its other fields. -/
theorem hotspots_malformed_fields_tolerated (now t1 t2 : ℤ) (ty s : String)
    (h1 : now - t1 < timeWindow) (h2 : now - t2 < timeWindow)
    (hs : parseIntJS s = none) :
    generateHotspots
      [{ latitude := none, longitude := none, severity := "low", type := ty,
         timestamp := t1, peopleAffected := some s },
       { latitude := none, longitude := none, severity := "low", type := ty,
         timestamp := t2, peopleAffected := none }] now =
      [{ id := (none, none), latitude := none, longitude := none, reportCount := 2,
         severity := "medium", types := [ty], lastUpdate := max t1 t2,
         affectedPeople := 0 }] := by
  simp [generateHotspots, h1, h2, hs, buildClusters, clusterStep, clusterKey, mkHotspot,
    sumLat, sumLng, jsAdd, jsDiv, severityScore, severityWeight, severityCategory, jsSetDedup,
    maxTimestamp, affectedPeopleOf]

/-- Witness for the amended C4 at `now = 0`, both timestamps 0, type
"flood" and the non-numeric peopleAffected string "abc". -/
theorem hotspots_malformed_fields_tolerated_witness :
    generateHotspots
      [{ latitude := none, longitude := none, severity := "low", type := "flood",
         timestamp := 0, peopleAffected := some "abc" },
       { latitude := none, longitude := none, severity := "low", type := "flood",
         timestamp := 0, peopleAffected := none }] 0 =
      [{ id := (none, none), latitude := none, longitude := none, reportCount := 2,
         severity := "medium", types := ["flood"], lastUpdate := max 0 0,
         affectedPeople := 0 }] :=
  hotspots_malformed_fields_tolerated 0 0 0 "flood" "abc" (by decide) (by decide) (by decide)

/-- Claim C7, counterexample: the cell coordinate is `Math.floor`, not
truncation toward zero, and the two differ for negative coordinates: the
reports at latitude -0.05 and 0.05 (longitude 0) have equal truncated pairs
(trunc(-0.5) = trunc(0.5) = 0) yet land in different cells ((-1, 0) versus
(0, 0)), so they never form a 2-report hotspot. -/
theorem grid_floor_not_trunc_counterexample :
    truncQ ((-0.05 : ℚ) * 10) = truncQ ((0.05 : ℚ) * 10) ∧
    clusterKey { latitude := some (-0.05), longitude := some 0, severity := "low",
                 type := "flood", timestamp := 0, peopleAffected := none } ≠
      clusterKey { latitude := some 0.05, longitude := some 0, severity := "low",
                   type := "flood", timestamp := 0, peopleAffected := none } ∧
    generateHotspots
      [{ latitude := some (-0.05), longitude := some 0, severity := "low", type := "flood",
         timestamp := 0, peopleAffected := none },
       { latitude := some 0.05, longitude := some 0, severity := "low", type := "flood",
         timestamp := 0, peopleAffected := none }] 0 = [] := by
  refine ⟨by norm_num [truncQ], by norm_num [clusterKey], ?_⟩
  norm_num [generateHotspots, timeWindow, buildClusters, clusterStep, clusterKey]

/-- Claim C7, amended: `generateHotspots` assigns every report of a cluster
to the cell obtained by FLOORING `latitude*10` and `longitude*10` (rounding
toward negative infinity, JS `Math.floor`); two reports with present
coordinates land in the same cell iff their floored integer pairs are equal;
flooring agrees with truncation toward zero for nonnegative values (so the
original claim holds for nonnegative coordinates) but not in general. -/
theorem grid_floor_cells :
    (∀ (rs : List Report) (k : Option ℤ × Option ℤ) (mem : List Report),
        (k, mem) ∈ buildClusters rs → ∀ r ∈ mem, clusterKey r = k) ∧
    (∀ (la1 lo1 la2 lo2 : ℚ) (sv1 ty1 : String) (t1 : ℤ) (p1 : Option String)
        (sv2 ty2 : String) (t2 : ℤ) (p2 : Option String),
        clusterKey ⟨some la1, some lo1, sv1, ty1, t1, p1⟩ =
            clusterKey ⟨some la2, some lo2, sv2, ty2, t2, p2⟩ ↔
          (⌊la1 * 10⌋ = ⌊la2 * 10⌋ ∧ ⌊lo1 * 10⌋ = ⌊lo2 * 10⌋)) ∧
    (∀ x : ℚ, 0 ≤ x → truncQ x = ⌊x⌋) := by
  refine ⟨?_, ?_, ?_⟩
  · intro rs
    exact foldl_clusterStep_inv rs [] (by intro k mem h; simp at h)
  · intro la1 lo1 la2 lo2 sv1 ty1 t1 p1 sv2 ty2 t2 p2
    simp [clusterKey, Prod.ext_iff]
  · intro x hx
    simp [truncQ, hx]

/-- Witness for the amended C7: a concrete singleton clustering, a concrete
same-cell equivalence and a concrete trunc/floor agreement. -/
theorem grid_floor_cells_witness :
    (clusterKey { latitude := some 1, longitude := some 2, severity := "low",
                  type := "flood", timestamp := 0, peopleAffected := none } =
        ((some 10, some 20) : Option ℤ × Option ℤ)) ∧
    truncQ 2 = ⌊(2 : ℚ)⌋ := by
  constructor
  · have h := grid_floor_cells.1
      [{ latitude := some 1, longitude := some 2, severity := "low",
         type := "flood", timestamp := 0, peopleAffected := none }]
      (some 10, some 20)
      [{ latitude := some 1, longitude := some 2, severity := "low",
         type := "flood", timestamp := 0, peopleAffected := none }]
    refine h ?_ _ (List.mem_singleton_self _)
    norm_num [buildClusters, clusterStep, clusterKey, List.mem_singleton]
  · exact grid_floor_cells.2.2 2 (by norm_num)

end Samudraksha
